import Mathlib

/-!
Verification development for the centrifuge inbound request-processing core
(`src/centrifuge/handlers.py`): the `ApiHandler.post` command pipeline and the
`SockjsConnection` connection lifecycle, shallowly embedded in Lean 4.

External collaborators (the `auth` module, the project structure/registry, the
JSON schema registry, the `Response` class from `core`, the `Client` class and
the command processor `process_call`) are not part of the given source tree;
they are modelled abstractly, following the specification's description of
their contracts, as parameters of the pipeline (`ApiEnv`) or as effect labels.
-/

/-- A JSON-like value, the shape of decoded request payloads. -/
inductive Json where
  | null
  | bool (b : Bool)
  | num (n : Int)
  | str (s : String)
  | arr (elems : List Json)
  | obj (fields : List (String × Json))

/-- Python truthiness of a JSON value (`if not data:`): `None`, `False`, `0`,
`""`, `[]` and `{}` are falsy. -/
def Json.truthy : Json → Bool
  | .null => false
  | .bool b => b
  | .num n => n != 0
  | .str s => !s.isEmpty
  | .arr elems => !elems.isEmpty
  | .obj fields => !fields.isEmpty

/-- First-match association-list lookup, the behaviour of Python `dict.get`. -/
def dictGet : List (String × Json) → String → Option Json
  | [], _ => none
  | (k, v) :: rest, key => if k = key then some v else dictGet rest key

/-- `data.get(key, None)` on a decoded payload: field lookup on an object,
`none` otherwise. -/
def Json.get (j : Json) (key : String) : Option Json :=
  match j with
  | .obj fields => dictGet fields key
  | _ => none

/-- Python truthiness of an optional string (`if error:` / `if not sign:`):
absent or empty is falsy. -/
def strTruthy : Option String → Bool
  | none => false
  | some s => !s.isEmpty

/-- Python truthiness of an optional boolean (`if not result:`). -/
def boolTruthy : Option Bool → Bool
  | none => false
  | some b => b

/-- An inbound HTTP request: its raw (still-encoded) body as bytes, plus the
metadata the auth extractor may consult. -/
structure Request where
  body : List Nat
  headers : List (String × String) := []

/-- Modelled from the spec: the auth info extracted from request metadata by
`auth.extract_auth_info` (not under `src/`); it carries at least an optional
`sign` field. -/
structure AuthInfo where
  sign : Option String := none

/-- Modelled from the spec: a Project is a tenant-scoped entity holding the
secret material for signature verification; opaque to this core. The project
class itself is not under `src/`. -/
structure Project where
  name : String := ""
deriving DecidableEq, Repr

/-- Modelled from the spec: the `Response` class from `centrifuge.core` (not
under `src/`): `uid` and `method` copied from the envelope when present,
`body` the result payload, `error` a human-readable message. All fields start
unpopulated. -/
structure Response where
  uid : Option Json := none
  method : Option Json := none
  body : Option Json := none
  error : Option String := none

/-- Outcome of one `ApiHandler.post` invocation: either a raised
`tornado.web.HTTPError` with a status code and log message (no `Response`
object is constructed on this path), or a finished structured `Response`. -/
inductive ApiOutcome where
  | httpError (code : Nat) (logMessage : String)
  | ok (resp : Response)

/-- Modelled from the spec: the external collaborators of the command
pipeline, none of which live under `src/`:
`auth.extract_auth_info` (returns auth info or an error),
`structure.get_project_by_id` (returns a project or an error),
`structure.check_auth` (verifies a signature over the raw encoded body with
the project's secret, returning a result or an error),
`auth.decode_data` (decodes raw bytes into a payload, `none` on failure),
`req_schema` validation (returns the validation-error message, `none` when
valid), the `admin_params_schema` method-to-schema registry, per-method
params validation, and `application.process_call`, which per the spec
produces a result or a domain error (exactly one of the two). -/
structure ApiEnv where
  extract_auth_info : Request → AuthInfo × Option String
  get_project_by_id : String → Option Project × Option String
  check_auth : Project → String → List Nat → Option Bool × Option String
  decode_data : List Nat → Option Json
  validate_req : Json → Option String
  admin_params_schema : String → Option Json
  validate_params : Json → Option Json → Option String
  process_call : Project → String → Option Json → Except String Json

/-- Membership test `method not in admin_params_schema` followed by the
lookup `admin_params_schema[method]`: only a string key can be present in the
registry; an absent or non-string `method` is never a member. -/
def methodLookup (schemas : String → Option Json) : Option Json → Option (String × Json)
  | some (Json.str s) => (schemas s).map (fun sch => (s, sch))
  | _ => none

/-- The response-building tail of `ApiHandler.post` (lines 86-114 of
`handlers.py`): validate against `req_schema`, read `uid`/`method`/`params`,
resolve the method in `admin_params_schema`, validate `params`, dispatch to
`process_call`, mutating a fresh `Response` along the way. -/
def processBody (env : ApiEnv) (project : Project) (data : Json) : ApiOutcome :=
  match env.validate_req data with
  | some msg => .ok { error := some msg }
  | none =>
    match methodLookup env.admin_params_schema (data.get "method") with
    | none =>
      .ok { uid := data.get "uid", method := data.get "method", error := some "method not found" }
    | some ms =>
      match env.validate_params ms.2 (data.get "params") with
      | some msg => .ok { uid := data.get "uid", method := data.get "method", error := some msg }
      | none =>
        match env.process_call project ms.1 (data.get "params") with
        | .ok result => .ok { uid := data.get "uid", method := data.get "method", body := some result }
        | .error e => .ok { uid := data.get "uid", method := data.get "method", error := some e }

/-- `ApiHandler.post` (lines 50-114 of `handlers.py`), stage by stage:
empty-body gate (400), auth extraction (401 on error), signature presence
(401), project resolution (500 on registry error, 404 when absent), a second
body-presence check on the same `request.body` (400), signature verification
over the raw encoded body (500 on verifier error, 401 on failure), decode
(400 when undecodable or falsy), then the response-building tail. -/
def apiPost (env : ApiEnv) (project_id : String) (req : Request) : ApiOutcome :=
  if req.body.isEmpty then .httpError 400 "empty request" else
  if strTruthy (env.extract_auth_info req).2 then
    .httpError 401 ((env.extract_auth_info req).2.getD "") else
  if !strTruthy (env.extract_auth_info req).1.sign then .httpError 401 "unauthorized" else
  if strTruthy (env.get_project_by_id project_id).2 then
    .httpError 500 ((env.get_project_by_id project_id).2.getD "") else
  match (env.get_project_by_id project_id).1 with
  | none => .httpError 404 "project not found"
  | some project =>
    if req.body.isEmpty then .httpError 400 "no request body" else
    if strTruthy (env.check_auth project ((env.extract_auth_info req).1.sign.getD "") req.body).2 then
      .httpError 500
        ((env.check_auth project ((env.extract_auth_info req).1.sign.getD "") req.body).2.getD "") else
    if !boolTruthy (env.check_auth project ((env.extract_auth_info req).1.sign.getD "") req.body).1 then
      .httpError 401 "unauthorized" else
    match env.decode_data req.body with
    | none => .httpError 400 "malformed data"
    | some data =>
      if !data.truthy then .httpError 400 "malformed data" else
      processBody env project data

/-- Every outcome of the response-building tail is a structured `Response`,
never an HTTP error. -/
lemma processBody_is_ok (env : ApiEnv) (project : Project) (data : Json) :
    ∃ resp, processBody env project data = ApiOutcome.ok resp := by
  unfold processBody
  repeat' split
  all_goals exact ⟨_, rfl⟩

/-- Recognizer for the rejection raised by the second body-presence check of
`ApiHandler.post` (line 74): status 400 with log message "no request body". -/
def isNoBodyError : ApiOutcome → Bool
  | .httpError code msg => code == 400 && msg == "no request body"
  | .ok _ => false

/-! ## Sample concrete instances, used by the witness theorems -/

/-- A concrete project. -/
def sampleProject : Project := { name := "p1" }

/-- A concrete decoded payload with `uid`, `method` and `params` fields. -/
def sampleData : Json :=
  Json.obj [("uid", Json.str "u1"), ("method", Json.str "ping"),
            ("params", Json.obj [("k", Json.str "v")])]

/-- A concrete non-empty request. -/
def sampleReq : Request := { body := [1, 2, 3] }

/-- A concrete environment on which every pipeline stage succeeds and the
registry knows the method "ping". -/
def sampleEnv : ApiEnv where
  extract_auth_info := fun _ => ({ sign := some "sig" }, none)
  get_project_by_id := fun _ => (some sampleProject, none)
  check_auth := fun _ _ _ => (some true, none)
  decode_data := fun _ => some sampleData
  validate_req := fun _ => none
  admin_params_schema := fun m => if m = "ping" then some (Json.obj []) else none
  validate_params := fun _ _ => none
  process_call := fun _ _ _ => .ok (Json.str "pong")

/-- The response produced by `apiPost` on the sample environment. -/
def sampleResp : Response :=
  { uid := some (Json.str "u1"), method := some (Json.str "ping"),
    body := some (Json.str "pong") }

/-! ## Connection lifecycle (`SockjsConnection`, lines 117-132) -/

/-- The transport session handle (`self.session`); its `transport_name`
selects whether the transport has native keepalive. An absent session is the
falsy `self.session` case. -/
structure Session where
  transport_name : String
deriving DecidableEq, Repr

/-- Modelled from the spec: the `Client` class (the per-connection Agent,
from `centrifuge.client`, not under `src/`); this core only creates it,
forwards messages to it and closes it, so it is opaque here beyond the
connection info it was constructed with. -/
structure Client where
  info : String
deriving DecidableEq, Repr

/-- Connection state per the spec: `CLOSED → OPEN → CLOSED`. -/
inductive ConnStatus where
  | OPEN
  | CLOSED
deriving DecidableEq, Repr

/-- The mutable state of one `SockjsConnection`: the bound client attribute
(`none` models the attribute being absent, as after `del self.client`),
whether a heartbeat was started, and the connection status. -/
structure ConnState where
  client : Option Client := none
  heartbeatStarted : Bool := false
  status : ConnStatus := .OPEN
deriving DecidableEq, Repr

/-- Observable side effects of the lifecycle handlers: constructing a
`Client`, starting the session heartbeat, closing the connection, calling
`client.close()`, and delivering a message via `client.message_received`. -/
inductive Effect where
  | createClient (info : String)
  | startHeartbeat
  | closeConn
  | clientClose
  | messageReceived (msg : String)
deriving DecidableEq, Repr

/-- Python `AttributeError`, raised when an instance attribute that was never
set or was deleted with `del` is accessed. -/
inductive PyError where
  | attributeError
deriving DecidableEq, Repr

/-- `SockjsConnection.on_open` (lines 119-125): unconditionally construct and
bind `Client(self, info)`, then, if the session is truthy, start the
heartbeat unless the transport is `rawwebsocket`; otherwise close the
connection. -/
def SockjsConnection.on_open (session : Option Session) (info : String)
    (st : ConnState) : ConnState × List Effect :=
  let st := { st with client := some { info := info } }
  match session with
  | some s =>
    if s.transport_name ≠ "rawwebsocket" then
      ({ st with heartbeatStarted := true }, [.createClient info, .startHeartbeat])
    else
      (st, [.createClient info])
  | none =>
    ({ st with status := .CLOSED }, [.createClient info, .closeConn])

/-- `SockjsConnection.on_message` (lines 127-128): `self.client.message_received(message)`;
accessing `self.client` raises `AttributeError` when the attribute is absent. -/
def SockjsConnection.on_message (st : ConnState) (message : String) :
    Except PyError (ConnState × List Effect) :=
  match st.client with
  | none => .error .attributeError
  | some _ => .ok (st, [.messageReceived message])

/-- `SockjsConnection.on_close` (lines 130-132): `self.client.close()` then
`del self.client`; accessing `self.client` raises `AttributeError` when the
attribute is absent. -/
def SockjsConnection.on_close (st : ConnState) :
    Except PyError (ConnState × List Effect) :=
  match st.client with
  | none => .error .attributeError
  | some _ => .ok ({ st with client := none }, [.clientClose])

/-! ## Claims about the connection lifecycle -/

/-- C1 (counterexample): the claim says that for a connection-open event with
an absent session no Agent (Client) is created; but at the concrete input
`session = none` the handler emits a `createClient` effect — `Client(self,
info)` is constructed unconditionally before the session check. -/
theorem C1_counterexample :
    Effect.createClient "i" ∈ (SockjsConnection.on_open none "i" {}).2 := by
  decide

/-- C1 (amended): for every connection-open event whose session is absent, an
Agent (Client) is created and bound unconditionally before the session check,
after which no heartbeat is started (the emitted effects are exactly client
creation and connection close, with no `startHeartbeat`) and the connection
transitions immediately to `CLOSED`. -/
theorem C1_open_without_session (info : String) (st : ConnState) :
    SockjsConnection.on_open none info st
      = ({ st with client := some { info := info }, status := ConnStatus.CLOSED },
         [Effect.createClient info, Effect.closeConn]) := rfl

/-- C2 (counterexample): the claim says that after close completes a late
message and a second close neither fault nor mutate state; but from the
concrete post-close state (client attribute deleted) both `on_message` and
`on_close` raise `AttributeError` instead of completing. -/
theorem C2_counterexample :
    SockjsConnection.on_close { client := some { info := "i" }, heartbeatStarted := true }
        = Except.ok ({ client := none, heartbeatStarted := true, status := ConnStatus.OPEN },
                     [Effect.clientClose]) ∧
    SockjsConnection.on_message { client := none, heartbeatStarted := true } "late"
        = Except.error PyError.attributeError ∧
    SockjsConnection.on_close { client := none, heartbeatStarted := true }
        = Except.error PyError.attributeError := by
  refine ⟨rfl, rfl, rfl⟩

/-- C2 (amended): after close completes on a Connection, the client binding
is removed, so a late-arriving message delivers no work to the Agent and a
second close delivers no further work to it; however, both calls raise an
`AttributeError` (the `client` attribute was deleted) rather than completing
as silent no-ops. -/
theorem C2_after_close_inert (st st2 : ConnState) (effs : List Effect) (msg : String)
    (h : SockjsConnection.on_close st = .ok (st2, effs)) :
    st2.client = none ∧
    SockjsConnection.on_message st2 msg = .error PyError.attributeError ∧
    SockjsConnection.on_close st2 = .error PyError.attributeError := by
  unfold SockjsConnection.on_close at h ⊢
  unfold SockjsConnection.on_message
  cases hc : st.client with
  | none => rw [hc] at h; exact absurd h (by simp)
  | some c =>
    rw [hc] at h
    injection h with h'
    injection h' with h1 h2
    subst h1
    simp

/-- C2 witness: the amended theorem applied to a concrete connection whose
close succeeds. -/
theorem C2_after_close_inert_witness :
    ({ client := none, heartbeatStarted := true, status := ConnStatus.OPEN } : ConnState).client = none ∧
    SockjsConnection.on_message { client := none, heartbeatStarted := true, status := ConnStatus.OPEN } "late"
      = .error PyError.attributeError ∧
    SockjsConnection.on_close { client := none, heartbeatStarted := true, status := ConnStatus.OPEN }
      = .error PyError.attributeError :=
  C2_after_close_inert { client := some { info := "i" }, heartbeatStarted := true, status := ConnStatus.OPEN }
    _ _ "late" rfl

/-! ## Claims about the command pipeline -/

/-- C3: for every request that is fully processed by the command pipeline
(reaches a structured Response), exactly one of the Response fields `body`
and `error` is populated. In particular both are never absent, so the
claim's allowance that "both may be absent only when rejection happened
before `method`/`uid` were known" holds vacuously. -/
theorem C3_body_error_exclusive (env : ApiEnv) (pid : String) (req : Request) (resp : Response)
    (h : apiPost env pid req = .ok resp) :
    (resp.body.isSome ∧ resp.error = none) ∨ (resp.body = none ∧ resp.error.isSome) := by
  unfold apiPost at h
  repeat' split at h
  all_goals (try (exfalso; exact ApiOutcome.noConfusion h))
  unfold processBody at h
  repeat' split at h
  all_goals (injection h with h; subst h; simp)

/-- C3 witness: the theorem applied to the sample environment, on which the
pipeline fully processes the request and dispatch succeeds. -/
theorem C3_body_error_exclusive_witness :
    (sampleResp.body.isSome ∧ sampleResp.error = none) ∨
    (sampleResp.body = none ∧ sampleResp.error.isSome) :=
  C3_body_error_exclusive sampleEnv "p1" sampleReq sampleResp rfl

/-- C10: the second body-presence check of `ApiHandler.post` (line 74, 400
"no request body") is unreachable: the pipeline re-reads the same immutable
`request.body` that already passed the stage-1 empty-body gate, so for every
environment and request no outcome of the pipeline is that rejection. -/
theorem C10_second_body_check_unreachable (env : ApiEnv) (project_id : String) (req : Request) :
    isNoBodyError (apiPost env project_id req) = false := by
  unfold apiPost
  by_cases hb : req.body.isEmpty = true
  · simp [hb, isNoBodyError]
  · simp only [hb, Bool.false_eq_true, if_false, ite_false]
    repeat' split
    all_goals try simp [isNoBodyError]
    all_goals (obtain ⟨resp, hr⟩ := processBody_is_ok env ‹Project› ‹Json›; simp [hr, isNoBodyError])

/-- C4: for every request with a non-empty body whose auth info lacks a
`sign` field, the pipeline's outcome is unauthorized (status 401), and the
check occurs before any project lookup: replacing the project registry by any
other function leaves the outcome unchanged. The environment's remaining
collaborators (decoder, validators, processor) are arbitrary, so this holds
even when the body would otherwise decode and validate. -/
theorem C4_missing_sign_unauthorized (env : ApiEnv) (pid : String) (req : Request)
    (hbody : req.body.isEmpty = false)
    (hsign : (env.extract_auth_info req).1.sign = none) :
    (∃ msg, apiPost env pid req = .httpError 401 msg) ∧
    ∀ g, apiPost { env with get_project_by_id := g } pid req = apiPost env pid req := by
  have hs : strTruthy (env.extract_auth_info req).1.sign = false := by rw [hsign]; rfl
  constructor
  · unfold apiPost
    by_cases he : strTruthy (env.extract_auth_info req).2 = true
    · exact ⟨(env.extract_auth_info req).2.getD "", by simp [hbody, he]⟩
    · exact ⟨"unauthorized", by simp [hbody, he, hs]⟩
  · intro g
    unfold apiPost
    by_cases he : strTruthy (env.extract_auth_info req).2 = true
    · simp [hbody, he]
    · simp [hbody, he, hs]

/-- A concrete environment whose auth extraction returns no `sign` field but
whose decoder and validators would otherwise accept the request. -/
def envNoSign : ApiEnv :=
  { sampleEnv with extract_auth_info := fun _ => ({ sign := none }, none) }

/-- C4 witness: the theorem applied to the concrete sign-less environment,
with a concrete replacement project registry. -/
theorem C4_missing_sign_unauthorized_witness :
    (∃ msg, apiPost envNoSign "p1" sampleReq = .httpError 401 msg) ∧
    apiPost { envNoSign with get_project_by_id := fun _ => (none, some "db down") } "p1" sampleReq
      = apiPost envNoSign "p1" sampleReq :=
  ⟨(C4_missing_sign_unauthorized envNoSign "p1" sampleReq rfl rfl).1,
   (C4_missing_sign_unauthorized envNoSign "p1" sampleReq rfl rfl).2 (fun _ => (none, some "db down"))⟩

/-- C5: once stages 1-4 pass, signature verification is performed by
`check_auth` applied to the resolved project, the extracted `sign` and the
raw still-encoded request body (`request.body`, not the decoded envelope):
a verifier error yields status 500 with the verifier's message, and a
verification failure yields status 401 "unauthorized"; both outcomes are
HTTP errors, so every later stage (decode, validation, dispatch) is
skipped. -/
theorem C5_signature_verification (env : ApiEnv) (pid : String) (req : Request)
    (proj : Project)
    (hbody : req.body.isEmpty = false)
    (haerr : strTruthy (env.extract_auth_info req).2 = false)
    (hsign : strTruthy (env.extract_auth_info req).1.sign = true)
    (hperr : strTruthy (env.get_project_by_id pid).2 = false)
    (hproj : (env.get_project_by_id pid).1 = some proj) :
    (strTruthy (env.check_auth proj ((env.extract_auth_info req).1.sign.getD "") req.body).2 = true →
      apiPost env pid req = .httpError 500
        ((env.check_auth proj ((env.extract_auth_info req).1.sign.getD "") req.body).2.getD "")) ∧
    (strTruthy (env.check_auth proj ((env.extract_auth_info req).1.sign.getD "") req.body).2 = false →
      boolTruthy (env.check_auth proj ((env.extract_auth_info req).1.sign.getD "") req.body).1 = false →
      apiPost env pid req = .httpError 401 "unauthorized") := by
  constructor
  · intro h1
    unfold apiPost
    simp [hbody, haerr, hsign, hperr, hproj, h1]
  · intro h1 h2
    unfold apiPost
    simp [hbody, haerr, hsign, hperr, hproj, h1, h2]

/-- A concrete environment whose signature verifier reports an internal
error. -/
def envVerifErr : ApiEnv := { sampleEnv with check_auth := fun _ _ _ => (none, some "boom") }

/-- A concrete environment whose signature verifier rejects the signature. -/
def envVerifFail : ApiEnv := { sampleEnv with check_auth := fun _ _ _ => (some false, none) }

/-- C5 witness: the theorem applied to the concrete verifier-error and
verification-failure environments. -/
theorem C5_signature_verification_witness :
    apiPost envVerifErr "p1" sampleReq = .httpError 500 "boom" ∧
    apiPost envVerifFail "p1" sampleReq = .httpError 401 "unauthorized" :=
  ⟨(C5_signature_verification envVerifErr "p1" sampleReq sampleProject rfl rfl rfl rfl rfl).1 rfl,
   (C5_signature_verification envVerifFail "p1" sampleReq sampleProject rfl rfl rfl rfl rfl).2 rfl rfl⟩

/-- C6: every protocol-level rejection (stages 1-6) terminates the exchange
as a raised HTTP error — an `ApiOutcome.httpError`, which carries no
`Response` — with the specified code: empty body gives 400, an undecodable
(or falsy) payload gives 400 "malformed data", a malformed-auth error or a
missing signature or failed verification gives 401, an unknown project gives
404, and a registry or verifier failure gives 500. -/
theorem C6_protocol_rejections (env : ApiEnv) (pid : String) (req : Request) :
    (req.body.isEmpty = true →
      apiPost env pid req = .httpError 400 "empty request") ∧
    (req.body.isEmpty = false →
      strTruthy (env.extract_auth_info req).2 = true →
      apiPost env pid req = .httpError 401 ((env.extract_auth_info req).2.getD "")) ∧
    (req.body.isEmpty = false →
      strTruthy (env.extract_auth_info req).2 = false →
      strTruthy (env.extract_auth_info req).1.sign = false →
      apiPost env pid req = .httpError 401 "unauthorized") ∧
    (req.body.isEmpty = false →
      strTruthy (env.extract_auth_info req).2 = false →
      strTruthy (env.extract_auth_info req).1.sign = true →
      strTruthy (env.get_project_by_id pid).2 = true →
      apiPost env pid req = .httpError 500 ((env.get_project_by_id pid).2.getD "")) ∧
    (req.body.isEmpty = false →
      strTruthy (env.extract_auth_info req).2 = false →
      strTruthy (env.extract_auth_info req).1.sign = true →
      strTruthy (env.get_project_by_id pid).2 = false →
      (env.get_project_by_id pid).1 = none →
      apiPost env pid req = .httpError 404 "project not found") ∧
    (∀ proj, req.body.isEmpty = false →
      strTruthy (env.extract_auth_info req).2 = false →
      strTruthy (env.extract_auth_info req).1.sign = true →
      strTruthy (env.get_project_by_id pid).2 = false →
      (env.get_project_by_id pid).1 = some proj →
      strTruthy (env.check_auth proj ((env.extract_auth_info req).1.sign.getD "") req.body).2 = true →
      apiPost env pid req = .httpError 500
        ((env.check_auth proj ((env.extract_auth_info req).1.sign.getD "") req.body).2.getD "")) ∧
    (∀ proj, req.body.isEmpty = false →
      strTruthy (env.extract_auth_info req).2 = false →
      strTruthy (env.extract_auth_info req).1.sign = true →
      strTruthy (env.get_project_by_id pid).2 = false →
      (env.get_project_by_id pid).1 = some proj →
      strTruthy (env.check_auth proj ((env.extract_auth_info req).1.sign.getD "") req.body).2 = false →
      boolTruthy (env.check_auth proj ((env.extract_auth_info req).1.sign.getD "") req.body).1 = false →
      apiPost env pid req = .httpError 401 "unauthorized") ∧
    (∀ proj, req.body.isEmpty = false →
      strTruthy (env.extract_auth_info req).2 = false →
      strTruthy (env.extract_auth_info req).1.sign = true →
      strTruthy (env.get_project_by_id pid).2 = false →
      (env.get_project_by_id pid).1 = some proj →
      strTruthy (env.check_auth proj ((env.extract_auth_info req).1.sign.getD "") req.body).2 = false →
      boolTruthy (env.check_auth proj ((env.extract_auth_info req).1.sign.getD "") req.body).1 = true →
      env.decode_data req.body = none →
      apiPost env pid req = .httpError 400 "malformed data") ∧
    (∀ proj data, req.body.isEmpty = false →
      strTruthy (env.extract_auth_info req).2 = false →
      strTruthy (env.extract_auth_info req).1.sign = true →
      strTruthy (env.get_project_by_id pid).2 = false →
      (env.get_project_by_id pid).1 = some proj →
      strTruthy (env.check_auth proj ((env.extract_auth_info req).1.sign.getD "") req.body).2 = false →
      boolTruthy (env.check_auth proj ((env.extract_auth_info req).1.sign.getD "") req.body).1 = true →
      env.decode_data req.body = some data →
      data.truthy = false →
      apiPost env pid req = .httpError 400 "malformed data") := by
  refine ⟨?_, ?_, ?_, ?_, ?_, ?_, ?_, ?_, ?_⟩
  · intro h1
    unfold apiPost
    simp [h1]
  · intro h1 h2
    unfold apiPost
    simp [h1, h2]
  · intro h1 h2 h3
    unfold apiPost
    simp [h1, h2, h3]
  · intro h1 h2 h3 h4
    unfold apiPost
    simp [h1, h2, h3, h4]
  · intro h1 h2 h3 h4 h5
    unfold apiPost
    simp [h1, h2, h3, h4, h5]
  · intro proj h1 h2 h3 h4 h5 h6
    unfold apiPost
    simp [h1, h2, h3, h4, h5, h6]
  · intro proj h1 h2 h3 h4 h5 h6 h7
    unfold apiPost
    simp [h1, h2, h3, h4, h5, h6, h7]
  · intro proj h1 h2 h3 h4 h5 h6 h7 h8
    unfold apiPost
    simp [h1, h2, h3, h4, h5, h6, h7, h8]
  · intro proj data h1 h2 h3 h4 h5 h6 h7 h8 h9
    unfold apiPost
    simp [h1, h2, h3, h4, h5, h6, h7, h8, h9]

/-- A concrete request with an empty body. -/
def reqEmpty : Request := { body := [] }

/-- A concrete environment whose auth extraction reports malformed auth
data. -/
def envAuthErr : ApiEnv :=
  { sampleEnv with extract_auth_info := fun _ => ({ sign := none }, some "bad auth") }

/-- A concrete environment whose project registry fails. -/
def envRegErr : ApiEnv := { sampleEnv with get_project_by_id := fun _ => (none, some "db down") }

/-- A concrete environment whose project registry knows no project. -/
def envNoProj : ApiEnv := { sampleEnv with get_project_by_id := fun _ => (none, none) }

/-- A concrete environment whose decoder cannot parse the body. -/
def envUndecodable : ApiEnv := { sampleEnv with decode_data := fun _ => none }

/-- A concrete environment whose decoder yields a falsy (empty) payload. -/
def envFalsyData : ApiEnv := { sampleEnv with decode_data := fun _ => some (Json.obj []) }

/-- C6 witness: each rejection conjunct applied to a concrete environment
that reaches exactly that stage. -/
theorem C6_protocol_rejections_witness :
    apiPost sampleEnv "p1" reqEmpty = .httpError 400 "empty request" ∧
    apiPost envAuthErr "p1" sampleReq = .httpError 401 "bad auth" ∧
    apiPost envNoSign "p1" sampleReq = .httpError 401 "unauthorized" ∧
    apiPost envRegErr "p1" sampleReq = .httpError 500 "db down" ∧
    apiPost envNoProj "p1" sampleReq = .httpError 404 "project not found" ∧
    apiPost envVerifErr "p1" sampleReq = .httpError 500 "boom" ∧
    apiPost envVerifFail "p1" sampleReq = .httpError 401 "unauthorized" ∧
    apiPost envUndecodable "p1" sampleReq = .httpError 400 "malformed data" ∧
    apiPost envFalsyData "p1" sampleReq = .httpError 400 "malformed data" :=
  ⟨(C6_protocol_rejections sampleEnv "p1" reqEmpty).1 rfl,
   (C6_protocol_rejections envAuthErr "p1" sampleReq).2.1 rfl rfl,
   (C6_protocol_rejections envNoSign "p1" sampleReq).2.2.1 rfl rfl rfl,
   (C6_protocol_rejections envRegErr "p1" sampleReq).2.2.2.1 rfl rfl rfl rfl,
   (C6_protocol_rejections envNoProj "p1" sampleReq).2.2.2.2.1 rfl rfl rfl rfl rfl,
   (C6_protocol_rejections envVerifErr "p1" sampleReq).2.2.2.2.2.1 sampleProject rfl rfl rfl rfl rfl rfl,
   (C6_protocol_rejections envVerifFail "p1" sampleReq).2.2.2.2.2.2.1 sampleProject rfl rfl rfl rfl rfl rfl rfl,
   (C6_protocol_rejections envUndecodable "p1" sampleReq).2.2.2.2.2.2.2.1 sampleProject rfl rfl rfl rfl rfl rfl rfl rfl,
   (C6_protocol_rejections envFalsyData "p1" sampleReq).2.2.2.2.2.2.2.2 sampleProject (Json.obj []) rfl rfl rfl rfl rfl rfl rfl rfl rfl⟩

/-- C7: for every decodable, schema-valid envelope whose `method` is not a
key of the command schema registry, the pipeline returns a Response with
`error = "method not found"` and with `uid` and `method` copied from the
envelope; replacing the command processor by any other function leaves the
outcome unchanged, so the processor is not invoked. -/
theorem C7_method_not_found (env : ApiEnv) (pid : String) (req : Request)
    (proj : Project) (data : Json)
    (hbody : req.body.isEmpty = false)
    (haerr : strTruthy (env.extract_auth_info req).2 = false)
    (hsign : strTruthy (env.extract_auth_info req).1.sign = true)
    (hperr : strTruthy (env.get_project_by_id pid).2 = false)
    (hproj : (env.get_project_by_id pid).1 = some proj)
    (hcerr : strTruthy (env.check_auth proj ((env.extract_auth_info req).1.sign.getD "") req.body).2 = false)
    (hcres : boolTruthy (env.check_auth proj ((env.extract_auth_info req).1.sign.getD "") req.body).1 = true)
    (hdec : env.decode_data req.body = some data)
    (htruthy : data.truthy = true)
    (hvreq : env.validate_req data = none)
    (hml : methodLookup env.admin_params_schema (data.get "method") = none) :
    apiPost env pid req
      = .ok { uid := data.get "uid", method := data.get "method",
              body := none, error := some "method not found" } ∧
    ∀ pc, apiPost { env with process_call := pc } pid req = apiPost env pid req := by
  constructor
  · unfold apiPost processBody
    simp [hbody, haerr, hsign, hperr, hproj, hcerr, hcres, hdec, htruthy, hvreq, hml]
  · intro pc
    unfold apiPost processBody
    simp [hbody, haerr, hsign, hperr, hproj, hcerr, hcres, hdec, htruthy, hvreq, hml]

/-- A concrete environment whose command schema registry is empty, so every
method is unknown. -/
def envUnknownMethod : ApiEnv := { sampleEnv with admin_params_schema := fun _ => none }

/-- C7 witness: the theorem applied to the empty-registry environment, with
a concrete replacement command processor for the independence conjunct. -/
theorem C7_method_not_found_witness :
    apiPost envUnknownMethod "p1" sampleReq
      = .ok { uid := some (Json.str "u1"), method := some (Json.str "ping"),
              body := none, error := some "method not found" } ∧
    apiPost { envUnknownMethod with process_call := fun _ _ _ => .error "never" } "p1" sampleReq
      = apiPost envUnknownMethod "p1" sampleReq :=
  ⟨(C7_method_not_found envUnknownMethod "p1" sampleReq sampleProject sampleData
      rfl rfl rfl rfl rfl rfl rfl rfl rfl rfl rfl).1,
   (C7_method_not_found envUnknownMethod "p1" sampleReq sampleProject sampleData
      rfl rfl rfl rfl rfl rfl rfl rfl rfl rfl rfl).2 (fun _ _ _ => .error "never")⟩

/-- C8: for every decoded body that fails validation against the general
request schema, the pipeline returns a Response whose `error` holds the
validation message and whose `uid` and `method` fields are not populated —
the conclusion fixes them to `none` with no assumption on the payload, so it
holds even when those fields are syntactically present. -/
theorem C8_envelope_validation_failure (env : ApiEnv) (pid : String) (req : Request)
    (proj : Project) (data : Json) (msg : String)
    (hbody : req.body.isEmpty = false)
    (haerr : strTruthy (env.extract_auth_info req).2 = false)
    (hsign : strTruthy (env.extract_auth_info req).1.sign = true)
    (hperr : strTruthy (env.get_project_by_id pid).2 = false)
    (hproj : (env.get_project_by_id pid).1 = some proj)
    (hcerr : strTruthy (env.check_auth proj ((env.extract_auth_info req).1.sign.getD "") req.body).2 = false)
    (hcres : boolTruthy (env.check_auth proj ((env.extract_auth_info req).1.sign.getD "") req.body).1 = true)
    (hdec : env.decode_data req.body = some data)
    (htruthy : data.truthy = true)
    (hvreq : env.validate_req data = some msg) :
    apiPost env pid req = .ok { uid := none, method := none, body := none, error := some msg } := by
  unfold apiPost processBody
  simp [hbody, haerr, hsign, hperr, hproj, hcerr, hcres, hdec, htruthy, hvreq]

/-- A concrete environment whose general request-schema validation fails,
while the decoded payload syntactically carries `uid` and `method`. -/
def envInvalidReq : ApiEnv := { sampleEnv with validate_req := fun _ => some "schema mismatch" }

/-- C8 witness: the theorem applied to the failing-validation environment;
the decoded `sampleData` does carry `uid` and `method` fields, yet the
Response leaves both unpopulated. -/
theorem C8_envelope_validation_failure_witness :
    apiPost envInvalidReq "p1" sampleReq
      = .ok { uid := none, method := none, body := none, error := some "schema mismatch" } :=
  C8_envelope_validation_failure envInvalidReq "p1" sampleReq sampleProject sampleData
    "schema mismatch" rfl rfl rfl rfl rfl rfl rfl rfl rfl rfl

/-- C9: for every request that reaches dispatch and for which dispatch
succeeds, the `uid` field of the decoded envelope (absent or present) is
copied unchanged into the Response's `uid`. -/
theorem C9_uid_copied_on_dispatch (env : ApiEnv) (pid : String) (req : Request)
    (proj : Project) (data : Json) (m : String) (sch : Json) (result : Json)
    (hbody : req.body.isEmpty = false)
    (haerr : strTruthy (env.extract_auth_info req).2 = false)
    (hsign : strTruthy (env.extract_auth_info req).1.sign = true)
    (hperr : strTruthy (env.get_project_by_id pid).2 = false)
    (hproj : (env.get_project_by_id pid).1 = some proj)
    (hcerr : strTruthy (env.check_auth proj ((env.extract_auth_info req).1.sign.getD "") req.body).2 = false)
    (hcres : boolTruthy (env.check_auth proj ((env.extract_auth_info req).1.sign.getD "") req.body).1 = true)
    (hdec : env.decode_data req.body = some data)
    (htruthy : data.truthy = true)
    (hvreq : env.validate_req data = none)
    (hml : methodLookup env.admin_params_schema (data.get "method") = some (m, sch))
    (hvp : env.validate_params sch (data.get "params") = none)
    (hdisp : env.process_call proj m (data.get "params") = .ok result) :
    apiPost env pid req
      = .ok { uid := data.get "uid", method := data.get "method",
              body := some result, error := none } := by
  unfold apiPost processBody
  simp [hbody, haerr, hsign, hperr, hproj, hcerr, hcres, hdec, htruthy, hvreq, hml, hvp, hdisp]

/-- C9 witness: on the sample environment dispatch succeeds and the
envelope's `uid` ("u1") appears unchanged in the Response. -/
theorem C9_uid_copied_on_dispatch_witness :
    apiPost sampleEnv "p1" sampleReq
      = .ok { uid := some (Json.str "u1"), method := some (Json.str "ping"),
              body := some (Json.str "pong"), error := none } :=
  C9_uid_copied_on_dispatch sampleEnv "p1" sampleReq sampleProject sampleData
    "ping" (Json.obj []) (Json.str "pong") rfl rfl rfl rfl rfl rfl rfl rfl rfl rfl rfl rfl rfl
